import Mathlib

/-!
# Verification of the pathway-database filter/reshape/aggregate pipeline

A shallow embedding of the tabular pipeline from `app.py` (and the
auxiliary `app copy.py`): categorical filtering, year-range projection,
wide-to-long melt, and the median aggregate-trend builder, together with
theorems settling each specification claim.

Scalar cells carry strings, numbers or a missing marker.  Numbers are
modelled as rationals `ℚ` (pandas floats, with exact arithmetic standing
in for IEEE rounding).  Missing (`NaN`) is an explicit constructor; the
pandas convention `str(NaN) = "nan"` and the NaN-skipping behaviour of
`median`/`nunique`/`groupby` are modelled explicitly below.
-/

/-- A single scalar cell of a table: a string, a numeric value, or
missing (pandas `NaN`). -/
inductive Cell where
  | str (s : String)
  | num (q : ℚ)
  | missing
deriving DecidableEq, Repr

/-- A pandas DataFrame: a list of column labels and a list of rows, each
row a list of cells positionally aligned with the labels.  Column labels
are modelled as strings (`str(col)` in the source). -/
structure Table where
  cols : List String
  rows : List (List Cell)
deriving DecidableEq, Repr

/-- `str.isdigit()` from Python, restricted to ASCII text (the year
labels the program classifies are ASCII): true iff the string is
non-empty and every character is a decimal digit.  Python's `isdigit`
performs no whitespace stripping. -/
def pyIsdigit (s : String) : Bool :=
  !s.data.isEmpty && s.data.all Char.isDigit

/-- Numeric value of an all-digit string, as `int(s)` computes it for
strings accepted by `isdigit`. -/
def digitsToNat (s : String) : ℕ :=
  s.data.foldl (fun a c => a * 10 + (c.toNat - 48)) 0

/-- Value of a list of decimal digit characters. -/
def digitsVal (l : List Char) : ℕ :=
  l.foldl (fun a c => a * 10 + (c.toNat - 48)) 0

/-- Parse an unsigned decimal literal `digits[.digits]` into a rational.
Models the grammar `pd.to_numeric` accepts on plain decimal text. -/
def parseUnsigned (l : List Char) : Option ℚ :=
  let intPart := l.takeWhile Char.isDigit
  let rest := l.dropWhile Char.isDigit
  if intPart.isEmpty then none
  else
    match rest with
    | [] => some (digitsVal intPart : ℚ)
    | '.' :: frac =>
        if frac.all Char.isDigit && !frac.isEmpty then
          some ((digitsVal intPart : ℚ) + (digitsVal frac : ℚ) / (10 ^ frac.length : ℚ))
        else none
    | _ => none

/-- `pd.to_numeric(s, errors="coerce")` on a string: parse an optionally
negated decimal literal, yielding `none` (missing) on failure. -/
def parseRat (s : String) : Option ℚ :=
  match s.data with
  | '-' :: rest => (parseUnsigned rest).map Neg.neg
  | l => parseUnsigned l

/-- Numeric coercion of a cell (`pd.to_numeric(..., errors="coerce")`):
numbers pass through, strings are parsed, anything else degrades to
missing. -/
def toNumericCell : Cell → Option ℚ
  | Cell.num q => some q
  | Cell.str s => parseRat s
  | Cell.missing => none

/-- `astype(str)` on a cell: the pandas string representation.  A missing
cell (`NaN`) renders as the string `"nan"`; numeric formatting is
abstracted by `toString` on the rational. -/
def pyStrCell : Cell → String
  | Cell.str s => s
  | Cell.num q => toString q
  | Cell.missing => "nan"

/-- `str.lower()` on one character, for the ASCII texts the program
filters on: upper-case ASCII letters shift to lower case, all other
characters pass through. -/
def pyLowerChar (ch : Char) : Char :=
  if 'A' ≤ ch && ch ≤ 'Z' then Char.ofNat (ch.toNat + 32) else ch

/-- `str.lower()` restricted to ASCII text. -/
def pyLower (s : String) : String :=
  ⟨s.data.map pyLowerChar⟩

/-- The cell of row `r` in column `c`, given the header `cols` the row is
aligned with (missing when the label is absent — callers guard presence
where pandas would raise). -/
def cellAt (cols : List String) (r : List Cell) (c : String) : Cell :=
  (r.get? (cols.indexOf c)).getD Cell.missing

/-- `df[cs]`: column projection.  pandas raises `KeyError` when any
requested label is absent; the embedding returns `none` in that case
(the spec's `MissingColumnError`). -/
def colSelect (t : Table) (cs : List String) : Option Table :=
  if cs.all (fun c => t.cols.contains c) then
    some ⟨cs, t.rows.map (fun r => cs.map (fun c => cellAt t.cols r c))⟩
  else none

example : pyIsdigit "2020" = true := by decide
example : pyIsdigit " 2020" = false := by decide
example : pyIsdigit "" = false := by decide
example : parseRat "2020" = some 2020 := by decide
example : parseRat "abc" = none := by decide
example : parseRat "2.5" = some (5/2) := by
  simp [parseRat, parseUnsigned, digitsVal]
  norm_num

/-!
## Categorical Filter

Embeds the filter actually applied to each dataset (`app.py:393-401`):
the UI loop registers a constraint only for columns present in the
table, and each selected constraint keeps the rows whose cell, under
`astype(str).str.lower()`, is a member (`isin`) of the lower-cased
selected values.  The presence guard of `app.py:394` (and of
`filter_data`, `app.py:57`) and the non-empty guard of `app.py:400` are
folded into `constraintKeep`.
-/

/-- Whether one constraint `(c, allowed)` keeps row `r`: vacuously true
when the allowed set is empty or the column is absent, otherwise `isin`
membership of the lower-cased string representation of the cell. -/
def constraintKeep (cols : List String) (c : String) (allowed : List String)
    (r : List Cell) : Bool :=
  allowed.isEmpty || !cols.contains c ||
    (allowed.map pyLower).contains (pyLower (pyStrCell (cellAt cols r c)))

/-- Apply one `(column, allowed-values)` constraint to a table
(`app.py:399-401` guarded by `app.py:394`). -/
def applyConstraint (t : Table) (c : String) (allowed : List String) : Table :=
  if allowed.isEmpty || !t.cols.contains c then t
  else ⟨t.cols, t.rows.filter (fun r =>
    (allowed.map pyLower).contains (pyLower (pyStrCell (cellAt t.cols r c))))⟩

/-- The Categorical Filter: apply the constraints of a `FilterSpec`
(association list from column name to allowed values) in order. -/
def applyFilterSpec (t : Table) (spec : List (String × List String)) : Table :=
  spec.foldl (fun acc p => applyConstraint acc p.1 p.2) t

/-!
## Year-Range Projector

Embeds `filter_by_year` (`app.py:62-66`).  The source reads the
module-level `df_full` — not its `df` parameter — to enumerate candidate
year columns; the embedding makes that global an explicit first
argument. -/

/-- The all-digit column labels of a header (`app.py:63`, `app.py:407`,
`app copy.py:40`): `[col for col in cols if str(col).isdigit()]`. -/
def yearColumnsOf (cols : List String) : List String :=
  cols.filter pyIsdigit

/-- `sorted(year_columns, key=int)`: stable sort of year labels by
integer value. -/
def sortByYear (l : List String) : List String :=
  l.insertionSort (fun a b => digitsToNat a ≤ digitsToNat b)

instance : IsTotal String (fun a b => digitsToNat a ≤ digitsToNat b) :=
  ⟨fun x y => Nat.le_total (digitsToNat x) (digitsToNat y)⟩

instance : IsTrans String (fun a b => digitsToNat a ≤ digitsToNat b) :=
  ⟨fun _ _ _ => Nat.le_trans⟩

/-- The year columns `filter_by_year` selects: all-digit labels of the
global `df_full`'s header, sorted ascending by integer value, restricted
to the closed interval `[start_year, end_year]` (`app.py:63-65`). -/
def selectedYears (fullCols : List String) (start_year end_year : ℤ) : List String :=
  (sortByYear (yearColumnsOf fullCols)).filter
    (fun y => decide (start_year ≤ (digitsToNat y : ℤ)) &&
              decide ((digitsToNat y : ℤ) ≤ end_year))

/-- `filter_by_year(df, filter_columns, start_year, end_year)`
(`app.py:62-66`), with the module-level global `df_full` passed
explicitly as `dfFull`.  Returns `none` where pandas raises `KeyError`
(a requested column absent from `df`). -/
def filter_by_year (dfFull : Table) (df : Table) (filter_columns : List String)
    (start_year end_year : ℤ) : Option Table :=
  colSelect df (filter_columns ++ selectedYears dfFull.cols start_year end_year)

/-!
## Year-range clamping (`app.py:426-429`)
-/

/-- Result of validating a year range: the range actually used and
whether the out-of-order warning message was displayed. -/
structure ClampResult where
  start_year : ℤ
  end_year : ℤ
  warned : Bool
deriving DecidableEq, Repr

/-- `if int(end_year) < int(start_year): st.error(...); end_year =
start_year` — the run continues with the clamped range; nothing is
raised. -/
def clampYearRange (start_year end_year : ℤ) : ClampResult :=
  if end_year < start_year then ⟨start_year, start_year, true⟩
  else ⟨start_year, end_year, false⟩

example : clampYearRange 2030 2020 = ⟨2030, 2030, true⟩ := by decide
example :
    applyFilterSpec ⟨["Scenario"], [[Cell.missing]]⟩ [("Scenario", ["nan"])]
      = ⟨["Scenario"], [[Cell.missing]]⟩ := by
  simp [applyFilterSpec, applyConstraint, cellAt, pyStrCell]

/-!
## Long-Form Reshaper (melt)

Embeds `df_model.melt(id_vars=filter_columns, value_vars=year_columns,
var_name="Year", value_name="Value")` followed by the numeric coercions
of `Year` and `Value` (`app.py:462-472`).  pandas stacks the melted
frame one `value_vars` block at a time, each block containing every
input row in order. -/

/-- One long-form row: identifier column values, the coerced year, and
the coerced value (missing when coercion failed). -/
structure LongRow where
  ids : List (String × Cell)
  year : Option ℚ
  value : Option ℚ
deriving DecidableEq, Repr

/-- The long row produced from input row `r` and year column `y`:
identifier cells are copied verbatim, `Year` is the numeric parse of the
column label, `Value` the numeric coercion of the cell. -/
def meltRow (cols idCols : List String) (y : String) (r : List Cell) : LongRow :=
  { ids := idCols.map (fun c => (c, cellAt cols r c)),
    year := parseRat y,
    value := toNumericCell (cellAt cols r y) }

/-- The Long-Form Reshaper: one output row per (input row, year column)
pair, stacked per year column as pandas `melt` does. -/
def melt (t : Table) (idCols yCols : List String) : List LongRow :=
  yCols.flatMap (fun y => t.rows.map (meltRow t.cols idCols y))

/-!
## Aggregate Trend Builder

Embeds `median_values = df_melted.groupby('Year')['Value'].median()
.reset_index(); median_values['Scenario'] = 'Median'`
(`app.py:474-475`, similarly `app.py:520-523`).  pandas `groupby` drops
rows whose key is `NaN`, sorts the remaining distinct keys ascending,
and `median` skips `NaN` values inside each group — yielding `NaN`
(here `none`) when every value of the group is missing. -/

/-- Ascending sort of rationals (the sort underlying the statistical
median and the `groupby` key order). -/
def sortRats (l : List ℚ) : List ℚ :=
  l.insertionSort (· ≤ ·)

/-- Median of an ascending-sorted list: the exact middle element for odd
length, the average of the two middle elements for even length, `none`
for the empty list (pandas: median of an all-`NaN` group is `NaN`). -/
def medianOfSorted (s : List ℚ) : Option ℚ :=
  if s.length = 0 then none
  else if s.length % 2 = 1 then s.get? (s.length / 2)
  else
    match s.get? (s.length / 2 - 1), s.get? (s.length / 2) with
    | some a, some b => some ((a + b) / 2)
    | _, _ => none

/-- `Series.median()`: sort, then take the middle (or average the two
middles), skipping missing values — the caller passes only the
non-missing values. -/
def medianList (l : List ℚ) : Option ℚ :=
  medianOfSorted (sortRats l)

/-- The distinct non-missing `Year` keys of the long rows, ascending —
the index of `groupby('Year')` (pandas sorts group keys and drops `NaN`
keys). -/
def distinctYears (rows : List LongRow) : List ℚ :=
  ((rows.filterMap LongRow.year).dedup).insertionSort (· ≤ ·)

/-- The non-missing `Value`s of the rows of year group `y`. -/
def groupValues (rows : List LongRow) (y : ℚ) : List ℚ :=
  (rows.filter (fun r => decide (r.year = some y))).filterMap LongRow.value

/-- A synthetic aggregate row: a `Year`, the group's median `Value`
(missing when the whole group was missing), and the sentinel
discriminator written into the `Scenario` column. -/
structure AggRow where
  year : ℚ
  value : Option ℚ
  scenario : String
deriving DecidableEq, Repr

/-- `df_melted.groupby('Year')['Value'].median().reset_index()` with
`Scenario = 'Median'` assigned (`app.py:474-475`): one row per distinct
non-missing year, ascending, carrying the group's median value. -/
def median_values (rows : List LongRow) : List AggRow :=
  (distinctYears rows).map (fun y => ⟨y, medianList (groupValues rows y), "Median"⟩)

/-!
## Chart dataset (`app.py:477-492`)

`pd.concat([df_melted, median_values])` aligns on the union of columns,
filling absent cells with `NaN`; then `dropna(subset=["Value"])` and the
`Value != 0` filter run, and `nunique()` (which skips `NaN`) drives the
`Unit`/`Variable` chart labels. A combined row is modelled as an
association list from column label to cell; a label absent from the list
reads as missing, exactly pandas' concat alignment. -/

/-- Read column `c` of a combined chart row; labels the row does not
carry are `NaN` after `pd.concat` alignment. -/
def lookupCell : List (String × Cell) → String → Cell
  | [], _ => Cell.missing
  | (c, v) :: rest, c' => if c = c' then v else lookupCell rest c'

/-- Render an optional numeric as a cell (`NaN` when missing). -/
def cellOfOpt : Option ℚ → Cell
  | none => Cell.missing
  | some q => Cell.num q

/-- The columns a melted long row contributes to the concatenated chart
frame: its identifier columns plus `Year` and `Value`. -/
def LongRow.toChartRow (r : LongRow) : List (String × Cell) :=
  r.ids ++ [("Year", cellOfOpt r.year), ("Value", cellOfOpt r.value)]

/-- The columns a synthetic median row contributes: only `Year`, `Value`
and the sentinel `Scenario`; every other column of the combined frame is
absent, hence missing after alignment. -/
def AggRow.toChartRow (a : AggRow) : List (String × Cell) :=
  [("Year", Cell.num a.year), ("Value", cellOfOpt a.value),
   ("Scenario", Cell.str a.scenario)]

/-- The `dropna(subset=["Value"])` and `Value != 0` display filter
applied to the combined frame (`app.py:483-484`). -/
def chartValueKeep (r : List (String × Cell)) : Bool :=
  match lookupCell r "Value" with
  | Cell.num q => decide (q ≠ 0)
  | _ => false

/-- `df_combined` as charted (`app.py:479-484`): original long rows
concatenated with the synthetic median rows, with missing-`Value` and
zero-`Value` rows removed. -/
def df_combined (melted : List LongRow) : List (List (String × Cell)) :=
  ((melted.map LongRow.toChartRow) ++
    (median_values melted).map AggRow.toChartRow).filter chartValueKeep

/-- `df[c].nunique()`: the number of distinct non-missing values of
column `c` (pandas `nunique` skips `NaN`). -/
def nuniqueCol (c : String) (rs : List (List (String × Cell))) : ℕ :=
  (((rs.map (fun r => lookupCell r c)).filter
      (fun v => decide (v ≠ Cell.missing))).dedup).length

example :
    median_values [⟨[], some 2020, none⟩] = [⟨2020, none, "Median"⟩] := by decide
example : medianList [1, 2, 3] = some 2 := by decide

/-!
## Helper lemmas
-/

theorem applyConstraint_cols (t : Table) (c : String) (a : List String) :
    (applyConstraint t c a).cols = t.cols := by
  unfold applyConstraint
  split <;> rfl

theorem applyConstraint_rows (t : Table) (c : String) (a : List String) :
    (applyConstraint t c a).rows
      = t.rows.filter (fun r => constraintKeep t.cols c a r) := by
  by_cases he : a = []
  · subst he
    simp [applyConstraint, constraintKeep]
  · by_cases hc : c ∈ t.cols
    · have he' : a.isEmpty = false := by simpa using he
      have hc' : t.cols.contains c = true := by simpa using hc
      simp [applyConstraint, constraintKeep, he', hc', he, hc]
    · have hc' : t.cols.contains c = false := by simpa using hc
      simp [applyConstraint, constraintKeep, hc', hc]

theorem applyConstraint_absent (t : Table) (c : String) (a : List String)
    (h : c ∉ t.cols) : applyConstraint t c a = t := by
  have hc : t.cols.contains c = false := by simpa using h
  simp [applyConstraint, hc, h]

theorem applyFilterSpec_cols (t : Table) (spec : List (String × List String)) :
    (applyFilterSpec t spec).cols = t.cols := by
  induction spec generalizing t with
  | nil => rfl
  | cons p s ih =>
    show (applyFilterSpec (applyConstraint t p.1 p.2) s).cols = t.cols
    rw [ih, applyConstraint_cols]

theorem contains_eq_true_iff {α : Type} [DecidableEq α] {l : List α} {a : α} :
    l.contains a = true ↔ a ∈ l := by
  simp [List.contains]

theorem contains_eq_false_iff {α : Type} [DecidableEq α] {l : List α} {a : α} :
    l.contains a = false ↔ a ∉ l := by
  simp [List.contains]

theorem constraintKeep_eq_true_iff (cols : List String) (c : String)
    (allowed : List String) (r : List Cell) :
    constraintKeep cols c allowed r = true ↔
      (allowed = [] ∨ c ∉ cols ∨
        pyLower (pyStrCell (cellAt cols r c)) ∈ allowed.map pyLower) := by
  simp only [constraintKeep, Bool.or_eq_true, List.isEmpty_iff, Bool.not_eq_true',
    contains_eq_true_iff, contains_eq_false_iff]
  tauto

theorem applyFilterSpec_rows (t : Table) (spec : List (String × List String)) :
    (applyFilterSpec t spec).rows
      = t.rows.filter (fun r => spec.all (fun p => constraintKeep t.cols p.1 p.2 r)) := by
  induction spec generalizing t with
  | nil => simp [applyFilterSpec]
  | cons p s ih =>
    show (applyFilterSpec (applyConstraint t p.1 p.2) s).rows = _
    rw [ih, applyConstraint_cols, applyConstraint_rows, List.filter_filter]
    simp [List.all_cons, Bool.and_comm]

/-!
## Claim C3 — Categorical Filter semantics
-/

/-- The row-retention predicate asserted by claim C3 (formalised from
the claim's words, for comparison with the code): exact lower-cased
membership in every non-empty constrained and present column, with a
row carrying a missing cell in a constrained column never retained. -/
def claimedKeepC3 (cols : List String) (spec : List (String × List String))
    (r : List Cell) : Bool :=
  spec.all (fun p =>
    p.2.isEmpty || !cols.contains p.1 ||
      ((p.2.map pyLower).contains (pyLower (pyStrCell (cellAt cols r p.1)))
        && decide (cellAt cols r p.1 ≠ Cell.missing)))

/-- C3 fails on the code: a missing cell is stringified by `astype(str)`
to `"nan"`, so a constraint whose allowed set contains `"nan"` retains a
row the claim says is never retained. -/
theorem categorical_filter_missing_counterexample :
    ¬ ((applyFilterSpec ⟨["Scenario"], [[Cell.missing]]⟩ [("Scenario", ["nan"])]).rows
        = (Table.mk ["Scenario"] [[Cell.missing]]).rows.filter
            (claimedKeepC3 ["Scenario"] [("Scenario", ["nan"])])) := by
  decide

/-- **C3 (amended).** The Categorical Filter keeps all columns and
retains exactly the rows that pass every constraint, where a non-empty
constraint on a present column tests exact lower-cased membership of
the cell's string representation in the lower-cased allowed set
(substring matching plays no part); constraints combine with logical
AND.  Missing cells take the string representation `"nan"`, so a row
with a missing cell in a constrained column is retained precisely when
`"nan"` is in that column's lower-cased allowed set. -/
theorem categorical_filter_exact_membership (t : Table)
    (spec : List (String × List String)) :
    (applyFilterSpec t spec).cols = t.cols ∧
    (applyFilterSpec t spec).rows
      = t.rows.filter (fun r => spec.all (fun p => constraintKeep t.cols p.1 p.2 r)) ∧
    ∀ r, r ∈ (applyFilterSpec t spec).rows ↔
      (r ∈ t.rows ∧ ∀ p ∈ spec, p.2 ≠ [] → p.1 ∈ t.cols →
        pyLower (pyStrCell (cellAt t.cols r p.1)) ∈ p.2.map pyLower) := by
  refine ⟨applyFilterSpec_cols t spec, applyFilterSpec_rows t spec, fun r => ?_⟩
  rw [applyFilterSpec_rows, List.mem_filter]
  simp only [List.all_eq_true, constraintKeep_eq_true_iff]
  constructor
  · rintro ⟨hr, hall⟩
    refine ⟨hr, fun p hp hne hmem => ?_⟩
    rcases hall p hp with h | h | h
    · exact absurd h hne
    · exact absurd hmem h
    · exact h
  · rintro ⟨hr, hall⟩
    refine ⟨hr, fun p hp => ?_⟩
    by_cases hne : p.2 = []
    · exact Or.inl hne
    by_cases hmem : p.1 ∈ t.cols
    · exact Or.inr (Or.inr (hall p hp hne hmem))
    · exact Or.inr (Or.inl hmem)

/-- Witness for C3's amended theorem at the spec's own end-to-end
scenario table, filtered on `Scenario = "Low"`. -/
theorem categorical_filter_exact_membership_witness :
    (applyFilterSpec
        ⟨["Model", "Scenario"], [[Cell.str "A", Cell.str "Low"], [Cell.str "A", Cell.str "High"]]⟩
        [("Scenario", ["Low"])]).cols = ["Model", "Scenario"] ∧
    (applyFilterSpec
        ⟨["Model", "Scenario"], [[Cell.str "A", Cell.str "Low"], [Cell.str "A", Cell.str "High"]]⟩
        [("Scenario", ["Low"])]).rows
      = ([[Cell.str "A", Cell.str "Low"], [Cell.str "A", Cell.str "High"]] :
          List (List Cell)).filter
          (fun r => ([("Scenario", ["Low"])] : List (String × List String)).all
            (fun p => constraintKeep ["Model", "Scenario"] p.1 p.2 r)) :=
  ⟨(categorical_filter_exact_membership _ [("Scenario", ["Low"])]).1,
   (categorical_filter_exact_membership _ [("Scenario", ["Low"])]).2.1⟩

/-!
## Claim C8 — absent filter columns are ignored
-/

/-- **C8.** A `FilterSpec` constraint naming a column absent from the
table is a no-op: the filter result equals the result of applying the
remaining constraints alone. -/
theorem absent_filter_column_ignored (t : Table) (c : String) (vs : List String)
    (spec : List (String × List String)) (h : c ∉ t.cols) :
    applyFilterSpec t ((c, vs) :: spec) = applyFilterSpec t spec := by
  show applyFilterSpec (applyConstraint t c vs) spec = _
  rw [applyConstraint_absent t c vs h]

/-- Witness for C8: a constraint on the absent column `Country` is
ignored while the constraint on `Scenario` still applies. -/
theorem absent_filter_column_ignored_witness :
    "Country" ∉ (Table.mk ["Scenario"] [[Cell.str "Low"]]).cols ∧
    applyFilterSpec ⟨["Scenario"], [[Cell.str "Low"]]⟩
        [("Country", ["India"]), ("Scenario", ["low"])]
      = applyFilterSpec ⟨["Scenario"], [[Cell.str "Low"]]⟩ [("Scenario", ["low"])] :=
  ⟨by decide,
   absent_filter_column_ignored ⟨["Scenario"], [[Cell.str "Low"]]⟩ "Country" ["India"]
     [("Scenario", ["low"])] (by decide)⟩

/-!
## Claim C5 — missing identifier columns are an error
-/

/-- **C5.** When an identifier column is absent from the input table,
`filter_by_year` fails (pandas `KeyError`, the spec's
`MissingColumnError`) rather than silently ignoring the column — in
contrast to the Categorical Filter, for which a constraint on the same
absent column is a no-op. -/
theorem missing_identifier_column_fails (dfFull df : Table)
    (filter_columns : List String) (start_year end_year : ℤ) (c : String)
    (h1 : c ∈ filter_columns) (h2 : c ∉ df.cols) :
    filter_by_year dfFull df filter_columns start_year end_year = none ∧
    ∀ vs spec, applyFilterSpec df ((c, vs) :: spec) = applyFilterSpec df spec := by
  constructor
  · unfold filter_by_year colSelect
    rw [if_neg]
    intro hall
    have hc := List.all_eq_true.mp hall c (List.mem_append_left _ h1)
    exact h2 (by simpa using hc)
  · intro vs spec
    show applyFilterSpec (applyConstraint df c vs) spec = _
    rw [applyConstraint_absent df c vs h2]

/-- Witness for C5: projecting on identifier column `Region`, absent
from the table, fails, while a categorical constraint on `Region` is
ignored. -/
theorem missing_identifier_column_fails_witness :
    filter_by_year ⟨["Model", "2020"], []⟩ ⟨["Model", "2020"], []⟩
        ["Model", "Region"] 2020 2020 = none ∧
    ∀ vs spec, applyFilterSpec ⟨["Model", "2020"], []⟩ (("Region", vs) :: spec)
      = applyFilterSpec ⟨["Model", "2020"], []⟩ spec :=
  missing_identifier_column_fails ⟨["Model", "2020"], []⟩ ⟨["Model", "2020"], []⟩
    ["Model", "Region"] 2020 2020 "Region" (by decide) (by decide)

/-!
## Claim C6 — year-column classification
-/

/-- Characters remaining after stripping leading and trailing
whitespace, on the character-list view of a string. -/
def stripChars (l : List Char) : List Char :=
  ((l.dropWhile Char.isWhitespace).reverse.dropWhile Char.isWhitespace).reverse

/-- The classifier asserted by claim C6 (formalised from the claim's
words, for comparison with the code): strip surrounding whitespace,
then require a non-empty all-digit remainder. -/
def claimedIsYearC6 (s : String) : Bool :=
  !(stripChars s.data).isEmpty && (stripChars s.data).all Char.isDigit

/-- C6 fails on the code: Python's `isdigit` performs no stripping, so
`" 2020"` — a year column according to the claim — is not classified as
a year column by `str(col).isdigit()`. -/
theorem year_classifier_counterexample :
    ¬ (pyIsdigit " 2020" = claimedIsYearC6 " 2020") := by
  decide

/-- **C6 (amended).** A column name is classified as a year column iff
it is non-empty and every one of its characters — with no whitespace
stripping — is a decimal digit; a name with surrounding whitespace
around an all-digit core is not a year column. -/
theorem year_classifier_all_digits (cols : List String) (n : String) :
    n ∈ yearColumnsOf cols
      ↔ (n ∈ cols ∧ n.data ≠ [] ∧ n.data.all Char.isDigit = true) := by
  rw [yearColumnsOf, List.mem_filter]
  unfold pyIsdigit
  constructor
  · rintro ⟨h1, h2⟩
    rw [Bool.and_eq_true] at h2
    refine ⟨h1, ?_, h2.2⟩
    intro hnil
    rw [hnil] at h2
    simp at h2
  · rintro ⟨h1, h2, h3⟩
    refine ⟨h1, ?_⟩
    rw [Bool.and_eq_true]
    exact ⟨by simpa using h2, h3⟩

/-!
## Claim C7 — year-range clamping
-/

/-- **C7.** An out-of-order year range is recovered by clamping:
`end_year` is reset to `start_year` and the warning flag is set; the
function is total (no failure is ever propagated) and the range it
returns always satisfies `start_year ≤ end_year`. -/
theorem year_range_clamping (start_year end_year : ℤ)
    (h : end_year < start_year) :
    clampYearRange start_year end_year = ⟨start_year, start_year, true⟩ ∧
    ∀ s e : ℤ, (clampYearRange s e).start_year ≤ (clampYearRange s e).end_year := by
  refine ⟨by simp [clampYearRange, h], fun s e => ?_⟩
  by_cases h2 : e < s
  · simp [clampYearRange, h2]
  · simp only [clampYearRange, if_neg h2]
    omega

/-- Witness for C7 at the spec's own example: `YearRange(2030, 2020)`
clamps to `(2030, 2030)` with a warning. -/
theorem year_range_clamping_witness :
    clampYearRange 2030 2020 = ⟨2030, 2030, true⟩ ∧
    ∀ s e : ℤ, (clampYearRange s e).start_year ≤ (clampYearRange s e).end_year :=
  year_range_clamping 2030 2020 (by decide)

/-!
## Claims C4 and C9 — the Year-Range Projector
-/

theorem mem_selectedYears (cols : List String) (s e : ℤ) (y : String) :
    y ∈ selectedYears cols s e ↔
      (y ∈ cols ∧ pyIsdigit y = true ∧
        s ≤ (digitsToNat y : ℤ) ∧ (digitsToNat y : ℤ) ≤ e) := by
  unfold selectedYears sortByYear yearColumnsOf
  rw [List.mem_filter, (List.perm_insertionSort _ _).mem_iff, List.mem_filter]
  simp [and_assoc]

theorem sorted_selectedYears (cols : List String) (s e : ℤ) :
    List.Sorted (fun a b => digitsToNat a ≤ digitsToNat b)
      (selectedYears cols s e) := by
  unfold selectedYears sortByYear
  exact (List.sorted_insertionSort _ _).filter _

/-- The output header claim C4 asserts: the identifier columns in their
given order, followed by the year columns *of the input table itself*
that lie in the closed year interval, ascending. -/
def claimedProjectorColsC4 (df : Table) (fcols : List String) (s e : ℤ) : List String :=
  fcols ++ selectedYears df.cols s e

/-- C4 fails on the code: `filter_by_year` enumerates candidate year
columns from the module-level `df_full`, not from its `df` argument, so
with a global whose header lacks `"2020"` the output misses the input's
in-range year column even though the claim's preconditions (identifier
columns present, `start_year ≤ end_year`) hold. -/
theorem year_range_projector_counterexample :
    (∀ c ∈ ["Model"], c ∈ (Table.mk ["Model", "2020"] []).cols) ∧
    (2015 : ℤ) ≤ 2025 ∧
    ¬ ((filter_by_year ⟨["Model"], []⟩ ⟨["Model", "2020"], []⟩ ["Model"] 2015 2025).map
          Table.cols
        = some (claimedProjectorColsC4 ⟨["Model", "2020"], []⟩ ["Model"] 2015 2025)) := by
  refine ⟨by decide, by decide, ?_⟩
  decide

/-- **C4 (amended).** The candidate year columns come from the global
`df_full`; in the main pipeline the projector is invoked with that very
table as its argument (`app.py:432`), and in that calling pattern, for
every table containing all the identifier columns and every
`start_year ≤ end_year`, the output header is exactly the identifier
columns in their given order followed by every year column of the input
whose integer value lies in `[start_year, end_year]`, in ascending
integer order. -/
theorem year_range_projector_cols (df : Table) (fcols : List String)
    (start_year end_year : ℤ)
    (hf : ∀ c ∈ fcols, c ∈ df.cols) (_hse : start_year ≤ end_year) :
    ∃ out, filter_by_year df df fcols start_year end_year = some out ∧
      out.cols = fcols ++ selectedYears df.cols start_year end_year ∧
      (∀ y, y ∈ selectedYears df.cols start_year end_year ↔
        (y ∈ df.cols ∧ pyIsdigit y = true ∧
          start_year ≤ (digitsToNat y : ℤ) ∧ (digitsToNat y : ℤ) ≤ end_year)) ∧
      List.Sorted (fun a b => digitsToNat a ≤ digitsToNat b)
        (selectedYears df.cols start_year end_year) := by
  have hall : (fcols ++ selectedYears df.cols start_year end_year).all
      (fun c => df.cols.contains c) = true := by
    rw [List.all_eq_true]
    intro c hc
    rcases List.mem_append.mp hc with h | h
    · exact contains_eq_true_iff.mpr (hf c h)
    · exact contains_eq_true_iff.mpr ((mem_selectedYears _ _ _ c).mp h).1
  refine ⟨⟨fcols ++ selectedYears df.cols start_year end_year,
      df.rows.map (fun r => (fcols ++ selectedYears df.cols start_year end_year).map
        (fun c => cellAt df.cols r c))⟩,
    ?_, rfl, fun y => mem_selectedYears _ _ _ y, sorted_selectedYears _ _ _⟩
  unfold filter_by_year colSelect
  rw [if_pos hall]

/-- Witness for C4's amended theorem: projecting the spec's end-to-end
table to `[2020, 2025]` keeps `Model`, `Scenario`, `"2020"`, `"2025"`
and drops `"2030"`. -/
theorem year_range_projector_cols_witness :
    ∃ out, filter_by_year ⟨["Model", "Scenario", "2020", "2025", "2030"], []⟩
        ⟨["Model", "Scenario", "2020", "2025", "2030"], []⟩
        ["Model", "Scenario"] 2020 2025 = some out ∧
      out.cols = ["Model", "Scenario"] ++
        selectedYears ["Model", "Scenario", "2020", "2025", "2030"] 2020 2025 ∧
      (∀ y, y ∈ selectedYears ["Model", "Scenario", "2020", "2025", "2030"] 2020 2025 ↔
        (y ∈ (["Model", "Scenario", "2020", "2025", "2030"] : List String) ∧
          pyIsdigit y = true ∧
          (2020 : ℤ) ≤ (digitsToNat y : ℤ) ∧ (digitsToNat y : ℤ) ≤ 2025)) ∧
      List.Sorted (fun a b => digitsToNat a ≤ digitsToNat b)
        (selectedYears ["Model", "Scenario", "2020", "2025", "2030"] 2020 2025) :=
  year_range_projector_cols ⟨["Model", "Scenario", "2020", "2025", "2030"], []⟩
    ["Model", "Scenario"] 2020 2025 (by decide) (by decide)

/-- **C9.** `filter_by_year` computes its candidate year columns from
the module-level `df_full` rather than from its `df` parameter: the
selected year columns are exactly the all-digit column labels of
`df_full` whose integer value lies in `[start_year, end_year]`,
regardless of the `df` argument's own header — so two runs with the
same `df` argument but different globals produce different results, as
the final concrete conjunct exhibits. -/
theorem filter_by_year_reads_global (dfFull df : Table)
    (filter_columns : List String) (start_year end_year : ℤ) :
    filter_by_year dfFull df filter_columns start_year end_year
        = colSelect df (filter_columns ++ selectedYears dfFull.cols start_year end_year) ∧
    (∀ y, y ∈ selectedYears dfFull.cols start_year end_year ↔
      (y ∈ dfFull.cols ∧ pyIsdigit y = true ∧
        start_year ≤ (digitsToNat y : ℤ) ∧ (digitsToNat y : ℤ) ≤ end_year)) ∧
    filter_by_year ⟨["2020"], [[Cell.num 1]]⟩ ⟨["2020"], [[Cell.num 1]]⟩ [] 2000 2050
      ≠ filter_by_year ⟨[], []⟩ ⟨["2020"], [[Cell.num 1]]⟩ [] 2000 2050 := by
  refine ⟨rfl, fun y => mem_selectedYears _ _ _ y, ?_⟩
  decide

/-!
## Claim C2 — melt row-count invariant
-/

theorem melt_length (t : Table) (idCols yCols : List String) :
    (melt t idCols yCols).length = t.rows.length * yCols.length := by
  unfold melt
  induction yCols with
  | nil => simp
  | cons y ys ih =>
    simp only [List.flatMap_cons, List.length_append, List.length_map, ih,
      List.length_cons]
    ring

/-- **C2.** The Long-Form Reshaper produces exactly `R × Y` long rows
for a table with `R` rows and `Y` year columns, and every (input row,
year column) pair contributes its long row — including pairs whose cell
fails numeric coercion, which are retained with `Value = missing` (the
witness exhibits such a row). -/
theorem melt_row_count (t : Table) (idCols yCols : List String) :
    (melt t idCols yCols).length = t.rows.length * yCols.length ∧
    ∀ y ∈ yCols, ∀ r ∈ t.rows, meltRow t.cols idCols y r ∈ melt t idCols yCols := by
  refine ⟨melt_length t idCols yCols, fun y hy r hr => ?_⟩
  unfold melt
  exact List.mem_flatMap.mpr ⟨y, hy, List.mem_map_of_mem _ hr⟩

/-- Witness for C2 on a one-row, one-year-column table whose value cell
is the non-numeric string `"abc"`: the row count is `1 × 1` and the
coercion-failed row is retained with `Value = missing`. -/
theorem melt_row_count_witness :
    (melt ⟨["Model", "2020"], [[Cell.str "A", Cell.str "abc"]]⟩
        ["Model"] ["2020"]).length = 1 * 1 ∧
    meltRow ["Model", "2020"] ["Model"] "2020" [Cell.str "A", Cell.str "abc"]
      ∈ melt ⟨["Model", "2020"], [[Cell.str "A", Cell.str "abc"]]⟩ ["Model"] ["2020"] ∧
    (meltRow ["Model", "2020"] ["Model"] "2020" [Cell.str "A", Cell.str "abc"]).value
      = none :=
  ⟨(melt_row_count ⟨["Model", "2020"], [[Cell.str "A", Cell.str "abc"]]⟩
      ["Model"] ["2020"]).1,
   (melt_row_count ⟨["Model", "2020"], [[Cell.str "A", Cell.str "abc"]]⟩
      ["Model"] ["2020"]).2 "2020" (by decide) [Cell.str "A", Cell.str "abc"] (by decide),
   by decide⟩

/-!
## Claim C1 — the Aggregate Trend Builder
-/

theorem mem_distinctYears (rows : List LongRow) (y : ℚ) :
    y ∈ distinctYears rows ↔ ∃ r ∈ rows, r.year = some y := by
  unfold distinctYears
  rw [(List.perm_insertionSort _ _).mem_iff, List.mem_dedup, List.mem_filterMap]

theorem nodup_distinctYears (rows : List LongRow) : (distinctYears rows).Nodup := by
  unfold distinctYears
  exact (List.perm_insertionSort _ _).nodup_iff.mpr (List.nodup_dedup _)

theorem median_values_years (rows : List LongRow) :
    (median_values rows).map AggRow.year = distinctYears rows := by
  unfold median_values
  rw [List.map_map]
  show List.map (fun y => y) (distinctYears rows) = distinctYears rows
  simp

/-- C1 fails on the code: `groupby('Year')['Value'].median()` still
emits a row for a year group whose every `Value` is missing — its
`Value` is `NaN` — where the claim says such a group emits no row at
all. -/
theorem aggregate_all_missing_counterexample :
    ¬ ((∀ r ∈ ([⟨[], some 2020, none⟩] : List LongRow), r.value = none) →
        median_values [⟨[], some 2020, none⟩] = []) := by
  intro h
  exact absurd (h (by decide)) (by decide)

/-- **C1 (amended).** The Aggregate Trend Builder emits exactly one
aggregate row per year group — the distinct non-missing `Year`s of the
input, in ascending order — with the sentinel written into the
discriminator column and `Value` the statistical median of the group's
non-missing `Value`s (witnessed by a sorted permutation with the middle
element taken for odd counts and the average of the two middles for
even counts).  A group whose every `Value` is missing emits a row with
`Value = missing` (removed only later by the caller's `dropna`), not no
row at all. -/
theorem aggregate_trend_builder (rows : List LongRow) :
    ((median_values rows).map AggRow.year).Nodup ∧
    List.Sorted (· ≤ ·) ((median_values rows).map AggRow.year) ∧
    (∀ y : ℚ, (y ∈ (median_values rows).map AggRow.year) ↔
      ∃ r ∈ rows, r.year = some y) ∧
    (∀ a ∈ median_values rows, a.scenario = "Median"
        ∧ a.value = medianList (groupValues rows a.year)
        ∧ (groupValues rows a.year = [] → a.value = none)) ∧
    (∀ l : List ℚ, ∀ q : ℚ, medianList l = some q →
      ∃ s : List ℚ, s.Perm l ∧ List.Sorted (· ≤ ·) s ∧
        ((s.length % 2 = 1 ∧ s.get? (s.length / 2) = some q) ∨
         (s.length % 2 = 0 ∧ ∃ x y : ℚ, s.get? (s.length / 2 - 1) = some x ∧
            s.get? (s.length / 2) = some y ∧ q = (x + y) / 2))) := by
  refine ⟨?_, ?_, ?_, ?_, ?_⟩
  · rw [median_values_years]
    exact nodup_distinctYears rows
  · rw [median_values_years]
    exact List.sorted_insertionSort _ _
  · intro y
    rw [median_values_years]
    exact mem_distinctYears rows y
  · intro a ha
    obtain ⟨y, _, rfl⟩ := List.mem_map.mp ha
    refine ⟨rfl, rfl, fun hempty => ?_⟩
    show medianList (groupValues rows y) = none
    rw [hempty]
    rfl
  · intro l q h
    refine ⟨sortRats l, List.perm_insertionSort _ _, List.sorted_insertionSort _ _, ?_⟩
    unfold medianList medianOfSorted at h
    split at h
    · exact absurd h (by simp)
    · split at h
      · next h0 h1 => exact Or.inl ⟨h1, h⟩
      · next h0 h1 =>
        split at h
        · next x y hx hy =>
          refine Or.inr ⟨by omega, x, y, hx, hy, ?_⟩
          exact (Option.some.inj h).symm
        · exact absurd h (by simp)

/-- Witness for C1's amended theorem: the sentinel/median structure at a
two-row group, and the spec's own median test points — an even-count
median obtained by applying the theorem's median characterisation to
`[1, 3, 2]` (odd) via a concrete `medianList` fact. -/
theorem aggregate_trend_builder_witness :
    (∃ s : List ℚ, s.Perm [1, 3, 2] ∧ List.Sorted (· ≤ ·) s ∧
      ((s.length % 2 = 1 ∧ s.get? (s.length / 2) = some 2) ∨
       (s.length % 2 = 0 ∧ ∃ x y : ℚ, s.get? (s.length / 2 - 1) = some x ∧
          s.get? (s.length / 2) = some y ∧ (2 : ℚ) = (x + y) / 2))) ∧
    ((median_values [⟨[], some 2020, some 10⟩, ⟨[], some 2020, some 20⟩]).map
        AggRow.year).Nodup :=
  ⟨(aggregate_trend_builder []).2.2.2.2 [1, 3, 2] 2 (by decide),
   (aggregate_trend_builder [⟨[], some 2020, some 10⟩, ⟨[], some 2020, some 20⟩]).1⟩

/-!
## Claim C10 — median rows after concatenation
-/

theorem lookup_aggRow_other (a : AggRow) (c : String)
    (h1 : c ≠ "Year") (h2 : c ≠ "Value") (h3 : c ≠ "Scenario") :
    lookupCell (AggRow.toChartRow a) c = Cell.missing := by
  simp [AggRow.toChartRow, lookupCell, Ne.symm h1, Ne.symm h2, Ne.symm h3]

/-- **C10.** Every synthetic median row carries values only in `Year`,
`Value` and the sentinel `Scenario` column: after `pd.concat`
alignment, any other column (`Model`, `Region`, `Variable`, `Unit`, …)
of a median row reads as missing, and — since `nunique` skips missing —
the median rows contribute nothing to the `Unit`/`Variable` uniqueness
checks that pick the chart labels: `nunique` over the combined, display-
filtered frame equals `nunique` over the display-filtered original long
rows alone. -/
theorem median_rows_carry_only_sentinel (rows : List LongRow) (c : String)
    (h1 : c ≠ "Year") (h2 : c ≠ "Value") (h3 : c ≠ "Scenario") :
    (∀ a ∈ median_values rows,
      lookupCell (AggRow.toChartRow a) c = Cell.missing ∧
      lookupCell (AggRow.toChartRow a) "Scenario" = Cell.str "Median") ∧
    nuniqueCol c (df_combined rows)
      = nuniqueCol c ((rows.map LongRow.toChartRow).filter chartValueKeep) := by
  constructor
  · intro a ha
    obtain ⟨y, _, rfl⟩ := List.mem_map.mp ha
    exact ⟨lookup_aggRow_other _ c h1 h2 h3, by simp [AggRow.toChartRow, lookupCell]⟩
  · unfold df_combined nuniqueCol
    rw [List.filter_append, List.map_append, List.filter_append]
    have hnil : ((((median_values rows).map AggRow.toChartRow).filter
        chartValueKeep).map (fun r => lookupCell r c)).filter
          (fun v => decide (v ≠ Cell.missing)) = [] := by
      rw [List.filter_eq_nil_iff]
      intro v hv
      obtain ⟨r, hr, rfl⟩ := List.mem_map.mp hv
      obtain ⟨a, _, rfl⟩ := List.mem_map.mp (List.mem_of_mem_filter hr)
      simp [lookup_aggRow_other a c h1 h2 h3]
    rw [hnil, List.append_nil]

/-- Witness for C10 with `c = Unit`: a median row over one long row
carrying a `Unit` identifier reads missing at `Unit`, and the `Unit`
uniqueness count of the combined frame equals that of the original
rows alone. -/
theorem median_rows_carry_only_sentinel_witness :
    (∀ a ∈ median_values [⟨[("Unit", Cell.str "Mt")], some 2020, some 1⟩],
      lookupCell (AggRow.toChartRow a) "Unit" = Cell.missing ∧
      lookupCell (AggRow.toChartRow a) "Scenario" = Cell.str "Median") ∧
    nuniqueCol "Unit" (df_combined [⟨[("Unit", Cell.str "Mt")], some 2020, some 1⟩])
      = nuniqueCol "Unit"
          (([⟨[("Unit", Cell.str "Mt")], some 2020, some 1⟩] : List LongRow).map
              LongRow.toChartRow |>.filter chartValueKeep) :=
  median_rows_carry_only_sentinel [⟨[("Unit", Cell.str "Mt")], some 2020, some 1⟩]
    "Unit" (by decide) (by decide) (by decide)
